import Mathlib

/-!
Verification of the GPS position-stabilization engines of the GPS-TUNNEL
repository.  The following definitions are shallow embeddings of the
TypeScript source files:

  * `src/hooks/useVoiceNavigation.ts` (second half, the `useStableGPS` hook):
    namespace `StableGPS`
  * `src/hooks/useUltraStableGPS.ts`: namespace `UltraStableGPS`
  * `src/hooks/useMobileGPS.ts`: namespace `MobileGPS`

Numbers are modelled as real numbers (the source computes with IEEE doubles;
the algorithms are specified and analysed here in exact arithmetic).
React `useState` setters are modelled by the functional-update semantics the
hooks actually have: within one invocation of a callback, reads of `useState`
variables see the values captured by the closure (the pre-step state), while
`useRef` cells mutate immediately; each step function maps the pre-step state
to the post-step state accordingly.  Timestamps (`Date.now()`) are passed in
explicitly as a `now` parameter.
-/

open scoped Classical

noncomputable section

namespace GPSTunnel

/-- A coordinate pair, `Position` from `src/types`. -/
structure Position where
  lat : ℝ
  lng : ℝ

/-- Model of JavaScript `Math.atan2` (two-argument arctangent) on the reals.
Signed zero is not modelled: `atan2 0 0 = 0`, matching `Math.atan2(0, 0)`. -/
def atan2 (y x : ℝ) : ℝ :=
  if 0 < x then Real.arctan (y / x)
  else if x < 0 then
    (if 0 ≤ y then Real.arctan (y / x) + Real.pi else Real.arctan (y / x) - Real.pi)
  else
    (if 0 < y then Real.pi / 2 else if y < 0 then -(Real.pi / 2) else 0)

/-- The intermediate value `a` of the Haversine formula, shared verbatim by
`calculateDistance` in `useUltraStableGPS.ts` (lines 51-64),
`useVoiceNavigation.ts` (lines 245-258) and `useMobileGPS.ts` (lines 71-84). -/
def haversineA (pos1 pos2 : Position) : ℝ :=
  let lat1Rad := pos1.lat * Real.pi / 180
  let lat2Rad := pos2.lat * Real.pi / 180
  let deltaLat := (pos2.lat - pos1.lat) * Real.pi / 180
  let deltaLng := (pos2.lng - pos1.lng) * Real.pi / 180
  Real.sin (deltaLat / 2) * Real.sin (deltaLat / 2) +
    Real.cos lat1Rad * Real.cos lat2Rad *
      (Real.sin (deltaLng / 2) * Real.sin (deltaLng / 2))

/-- `calculateDistance`: the Haversine distance with Earth radius 6371000 m,
`const c = 2 * Math.atan2(Math.sqrt(a), Math.sqrt(1-a)); return R * c;`. -/
def calculateDistance (pos1 pos2 : Position) : ℝ :=
  6371000 *
    (2 * atan2 (Real.sqrt (haversineA pos1 pos2)) (Real.sqrt (1 - haversineA pos1 pos2)))

/-- Model of the JavaScript `Array.prototype.slice(-n)`: the last `n`
elements of a list (the whole list when it is shorter than `n`). -/
def lastN {α : Type} (n : ℕ) (l : List α) : List α :=
  l.drop (l.length - n)

/-- The four-level signal-quality classification shared by the engines. -/
inductive SignalQuality where
  | excellent
  | good
  | fair
  | poor
deriving DecidableEq

namespace StableGPS

/-- `GPSReading` of `useVoiceNavigation.ts` (the `useStableGPS` hook). -/
structure GPSReading where
  lat : ℝ
  lng : ℝ
  accuracy : ℝ
  timestamp : ℝ
  speed : Option ℝ
  heading : Option ℝ
  confidence : ℝ

/-- A reading used as a plain coordinate (structural subtyping in the source:
`GPSReading extends Position`). -/
def GPSReading.toPos (r : GPSReading) : Position :=
  ⟨r.lat, r.lng⟩

/-- The `StableGPSOptions` of `useStableGPS`, with the hook's defaults in
`stableDefaults`. -/
structure StableConfig where
  minAccuracy : ℝ
  maxAccuracy : ℝ
  smoothingFactor : ℝ
  outlierThreshold : ℝ
  minUpdateInterval : ℝ
  enableKalmanFilter : Bool
  enableMedianFilter : Bool
  enableConfidenceFiltering : Bool

def stableDefaults : StableConfig :=
  { minAccuracy := 5, maxAccuracy := 50, smoothingFactor := 0.3,
    outlierThreshold := 30, minUpdateInterval := 500,
    enableKalmanFilter := true, enableMedianFilter := true,
    enableConfidenceFiltering := true }

/-- `calculateConfidence` (useVoiceNavigation.ts lines 330-357): sequential
multiplication of the accuracy, consistency and frequency factors, then the
final clamp `max(0.1, min(1.0, confidence))`. -/
def calculateConfidence (cfg : StableConfig) (readings : List GPSReading)
    (lastValidReading : Option GPSReading) (reading : GPSReading) : ℝ :=
  let c1 : ℝ :=
    if 0 < reading.accuracy then
      1.0 * max 0.1 (1 - (reading.accuracy - cfg.minAccuracy) / (cfg.maxAccuracy - cfg.minAccuracy))
    else 1.0
  let c2 : ℝ :=
    if 2 < readings.length then
      (let recent := lastN 3 readings
       let avgLat := (recent.map GPSReading.lat).sum / recent.length
       let avgLng := (recent.map GPSReading.lng).sum / recent.length
       let deviation := calculateDistance reading.toPos ⟨avgLat, avgLng⟩
       c1 * max 0.1 (1 - deviation / 20))
    else c1
  let c3 : ℝ :=
    match lastValidReading with
    | some lv => if reading.timestamp - lv.timestamp < 1000 then c2 * 0.7 else c2
    | none => c2
  max 0.1 (min 1.0 c3)

/-- `isValidReading` (useVoiceNavigation.ts lines 360-386): accuracy bounds
check, then implied-speed and jump-distance outlier checks against the last
valid reading. -/
def isValidReading (cfg : StableConfig) (lastValidReading : Option GPSReading)
    (reading : GPSReading) : Bool :=
  if reading.accuracy < cfg.minAccuracy ∨ cfg.maxAccuracy < reading.accuracy then
    false
  else
    match lastValidReading with
    | some lv =>
      let distance := calculateDistance reading.toPos lv.toPos
      let timeDiff := (reading.timestamp - lv.timestamp) / 1000
      if 0 < timeDiff ∧ 55 < distance / timeDiff then false
      else if cfg.outlierThreshold < distance then false
      else true
    | none => true

/-- The Kalman filter state of `useStableGPS` (`kalmanState` ref):
state vector `[lat, lng, vel_lat, vel_lng]`, 4x4 covariance matrix `P`,
process noise `Q`, measurement noise `R`. -/
structure KalmanState where
  x0 : ℝ
  x1 : ℝ
  x2 : ℝ
  x3 : ℝ
  P : Fin 4 → Fin 4 → ℝ
  Q : ℝ
  R : ℝ
  initialized : Bool

/-- The initial value given to the `kalmanState` ref: zero state, a diagonal
covariance with 1000 on each diagonal entry, `Q = 0.1`, `R = 1`. -/
def initialKalmanState : KalmanState :=
  { x0 := 0, x1 := 0, x2 := 0, x3 := 0,
    P := fun i j => if i = j then 1000 else 0,
    Q := 0.1, R := 1, initialized := false }

/-- `applyKalmanFilter` (useVoiceNavigation.ts lines 261-310).  Returns the
updated filter state together with the returned `Position`.  The source also
builds a transition matrix `F` that it never uses; it is omitted.  Note that
the source never writes to `state.P`. -/
def applyKalmanFilter (state : KalmanState) (lastValidReading : Option GPSReading)
    (reading : GPSReading) : KalmanState × Position :=
  let dt : ℝ :=
    match lastValidReading with
    | some lv => (reading.timestamp - lv.timestamp) / 1000
    | none => 1
  if state.initialized = false then
    ({ state with
        x0 := reading.lat
        x1 := reading.lng
        x2 := 0
        x3 := 0
        initialized := true },
     ⟨reading.lat, reading.lng⟩)
  else
    let xp0 := state.x0 + state.x2 * dt
    let xp1 := state.x1 + state.x3 * dt
    let R1 := max 0.1 (reading.accuracy / 10)
    let y0 := reading.lat - xp0
    let y1 := reading.lng - xp1
    let S := state.P 0 0 + R1
    let x0n := xp0 + state.P 0 0 / S * y0 + state.P 0 1 / S * y1
    let x1n := xp1 + state.P 1 0 / S * y0 + state.P 1 1 / S * y1
    let x2n := state.x2 + state.P 2 0 / S * y0 + state.P 2 1 / S * y1
    let x3n := state.x3 + state.P 3 0 / S * y0 + state.P 3 1 / S * y1
    ({ state with x0 := x0n, x1 := x1n, x2 := x2n, x3 := x3n, R := R1 }, ⟨x0n, x1n⟩)

/-- `applyMedianFilter` (useVoiceNavigation.ts lines 313-327): per-axis median
of the last five buffered readings (`readings.current.slice(-5)`); passes the
raw coordinate through when fewer than three readings are available.
`Array.prototype.sort((a, b) => a - b)` is modelled by `List.insertionSort`. -/
def applyMedianFilter (readings : List GPSReading) (reading : GPSReading) : Position :=
  let recentReadings := lastN 5 readings
  if recentReadings.length < 3 then ⟨reading.lat, reading.lng⟩
  else
    let lats := List.insertionSort (fun a b => a ≤ b) (recentReadings.map GPSReading.lat)
    let lngs := List.insertionSort (fun a b => a ≤ b) (recentReadings.map GPSReading.lng)
    ⟨lats.getD (lats.length / 2) 0, lngs.getD (lngs.length / 2) 0⟩

/-- The mutable state of the `useStableGPS` hook (both the `useState` values
and the `useRef` cells). -/
structure StableState where
  position : Option Position
  smoothedPosition : Option Position
  accuracy : ℝ
  confidence : ℝ
  signalQuality : SignalQuality
  readings : List GPSReading
  lastValidReading : Option GPSReading
  lastUpdateTime : ℝ
  stabilizedPosition : Option Position
  kalman : KalmanState

/-- The raw reading record built at the top of `processGPSReading`
(`confidence` starts at 0, the timestamp is `Date.now()`). -/
def mkStableReading (latIn lngIn accuracyIn : ℝ) (speedIn headingIn : Option ℝ)
    (now : ℝ) : GPSReading :=
  { lat := latIn, lng := lngIn, accuracy := accuracyIn, timestamp := now,
    speed := speedIn, heading := headingIn, confidence := 0 }

/-- The body of `processGPSReading` after a reading has passed the
confidence floor and validation (useVoiceNavigation.ts lines 421-471):
buffer append (capacity 20), the filter pipeline (median, Kalman,
exponential smoothing) and the state updates. -/
def acceptReading (cfg : StableConfig) (s : StableState) (reading : GPSReading)
    (now : ℝ) : StableState :=
  let readings1 := s.readings ++ [reading]
  let readings2 := if 20 < readings1.length then readings1.tail else readings1
  let filtered0 : Position := ⟨reading.lat, reading.lng⟩
  let filtered1 : Position :=
    if cfg.enableMedianFilter = true ∧ 3 ≤ readings2.length then
      applyMedianFilter readings2 reading
    else filtered0
  let kalmanOut : KalmanState × Position :=
    if cfg.enableKalmanFilter = true then
      applyKalmanFilter s.kalman s.lastValidReading
        { reading with lat := filtered1.lat, lng := filtered1.lng }
    else (s.kalman, filtered1)
  let filtered2 := kalmanOut.2
  let smoothed : Position :=
    match s.stabilizedPosition with
    | some prev =>
      ⟨prev.lat * (1 - cfg.smoothingFactor) + filtered2.lat * cfg.smoothingFactor,
       prev.lng * (1 - cfg.smoothingFactor) + filtered2.lng * cfg.smoothingFactor⟩
    | none => filtered2
  { position := some ⟨reading.lat, reading.lng⟩,
    smoothedPosition := some smoothed,
    accuracy := reading.accuracy,
    confidence := reading.confidence,
    signalQuality :=
      if reading.accuracy ≤ 10 then .excellent
      else if reading.accuracy ≤ 20 then .good
      else if reading.accuracy ≤ 35 then .fair
      else .poor,
    readings := readings2,
    lastValidReading := some reading,
    lastUpdateTime := now,
    stabilizedPosition := some smoothed,
    kalman := kalmanOut.1 }

/-- `processGPSReading` (useVoiceNavigation.ts lines 389-476): throttle,
confidence floor, validation, then the accepted-reading body
`acceptReading`. -/
def processGPSReading (cfg : StableConfig) (s : StableState)
    (latIn lngIn accuracyIn : ℝ) (speedIn headingIn : Option ℝ) (now : ℝ) : StableState :=
  if now - s.lastUpdateTime < cfg.minUpdateInterval then s
  else
    let reading0 : GPSReading := mkStableReading latIn lngIn accuracyIn speedIn headingIn now
    let conf : ℝ :=
      if cfg.enableConfidenceFiltering = true then
        calculateConfidence cfg s.readings s.lastValidReading reading0
      else 1.0
    if cfg.enableConfidenceFiltering = true ∧ conf < 0.3 then s
    else
      let reading : GPSReading := { reading0 with confidence := conf }
      if isValidReading cfg s.lastValidReading reading = false then s
      else acceptReading cfg s reading now

end StableGPS

namespace UltraStableGPS

/-- `GPSBuffer` of `useUltraStableGPS.ts`. -/
structure GPSBuffer where
  lat : ℝ
  lng : ℝ
  accuracy : ℝ
  timestamp : ℝ
  confidence : ℝ
  isValidated : Bool

def GPSBuffer.toPos (r : GPSBuffer) : Position :=
  ⟨r.lat, r.lng⟩

/-- `UltraStableGPSOptions` with the hook's defaults in `ultraDefaults`.
`lockDuration` only drives the asynchronous auto-unlock timer, which is
outside the synchronous ingest step modelled here. -/
structure UltraConfig where
  lockRadius : ℝ
  minimumAccuracy : ℝ
  bufferSize : ℕ
  lockThreshold : ℕ
  maxJumpDistance : ℝ
  updateInterval : ℝ
  enablePositionLock : Bool
  lockDuration : ℝ

def ultraDefaults : UltraConfig :=
  { lockRadius := 2, minimumAccuracy := 5, bufferSize := 15, lockThreshold := 5,
    maxJumpDistance := 15, updateInterval := 1000, enablePositionLock := true,
    lockDuration := 5000 }

/-- `calculateWeightedAverage` (useUltraStableGPS.ts lines 67-104): averages
the recent, accurate, validated buffer entries with accuracy-, recency- and
confidence-based weights. -/
def calculateWeightedAverage (cfg : UltraConfig) (now : ℝ)
    (gpsBuffer : List GPSBuffer) : Option Position :=
  if gpsBuffer.length = 0 then none
  else
    let recentReadings := gpsBuffer.filter fun r =>
      decide (now - r.timestamp < 10000 ∧ r.accuracy ≤ cfg.minimumAccuracy * 2 ∧
        r.isValidated = true)
    if recentReadings.length = 0 then none
    else
      let weightOf : GPSBuffer → ℝ := fun r =>
        (1 / max r.accuracy 1) * (1 - (now - r.timestamp) / 10000) * r.confidence
      let totalWeight := (recentReadings.map weightOf).sum
      let weightedLat := (recentReadings.map fun r => r.lat * weightOf r).sum
      let weightedLng := (recentReadings.map fun r => r.lng * weightOf r).sum
      if totalWeight = 0 then none
      else some ⟨weightedLat / totalWeight, weightedLng / totalWeight⟩

/-- `validateGPSReading` (useUltraStableGPS.ts lines 107-137): minimum
accuracy requirement, jump check against `basePosition`, and consistency
check against the mean of the last three buffered readings. -/
def validateGPSReading (cfg : UltraConfig) (basePosition : Option Position)
    (gpsBuffer : List GPSBuffer) (reading : GPSBuffer) : Bool :=
  if cfg.minimumAccuracy < reading.accuracy then false
  else if (∃ b, basePosition = some b ∧
      cfg.maxJumpDistance < calculateDistance reading.toPos b) then false
  else if (3 ≤ gpsBuffer.length ∧
      (let recent := lastN 3 gpsBuffer
       let avgLat := (recent.map GPSBuffer.lat).sum / recent.length
       let avgLng := (recent.map GPSBuffer.lng).sum / recent.length
       cfg.lockRadius * 3 < calculateDistance reading.toPos ⟨avgLat, avgLng⟩)) then false
  else true

/-- The mutable state of the `useUltraStableGPS` hook. -/
structure UltraState where
  position : Option Position
  lockedPosition : Option Position
  isLocked : Bool
  accuracy : ℝ
  confidence : ℝ
  signalQuality : SignalQuality
  gpsBuffer : List GPSBuffer
  lastUpdateTime : ℝ
  consecutiveGoodReadings : ℕ
  basePosition : Option Position

/-- The confidence score of `processGPSReading` (useUltraStableGPS.ts lines
175-178): `max(0.1, min(1.0, 1 - (accuracy - minimumAccuracy) / (50 -
minimumAccuracy)))`. -/
def ultraConfidence (cfg : UltraConfig) (accuracyIn : ℝ) : ℝ :=
  max 0.1 (min 1.0 (1 - (accuracyIn - cfg.minimumAccuracy) / (50 - cfg.minimumAccuracy)))

/-- The reading record built at the top of `processGPSReading`, before
validation. -/
def mkUltraReading (cfg : UltraConfig) (latIn lngIn accuracyIn now : ℝ) : GPSBuffer :=
  { lat := latIn, lng := lngIn, accuracy := accuracyIn, timestamp := now,
    confidence := ultraConfidence cfg accuracyIn, isValidated := false }

/-- The buffer after a validated reading is pushed: append, then evict the
oldest entry when the capacity `bufferSize` is exceeded. -/
def ultraPostBuffer (cfg : UltraConfig) (s : UltraState) (reading : GPSBuffer) :
    List GPSBuffer :=
  let buffer1 := s.gpsBuffer ++ [reading]
  if cfg.bufferSize < buffer1.length then buffer1.tail else buffer1

/-- The body of `processGPSReading` after a reading has passed validation
(useUltraStableGPS.ts lines 187-252): buffer append, consecutive-good count,
weighted average, position-lock logic and the state updates.  The reading is
the record whose `isValidated` field has been set to the validation result
(`true` on this path); `reading.accuracy` and `reading.confidence` are the
values also used for the quality fields. -/
def acceptReading (cfg : UltraConfig) (s : UltraState) (reading : GPSBuffer)
    (now : ℝ) : UltraState :=
  let buffer2 := ultraPostBuffer cfg s reading
  let consec : ℕ :=
    if reading.accuracy ≤ cfg.minimumAccuracy then s.consecutiveGoodReadings + 1 else 0
  match calculateWeightedAverage cfg now buffer2 with
  | none =>
    { s with gpsBuffer := buffer2, consecutiveGoodReadings := consec }
  | some stablePosition =>
    -- `lockPosition(stablePosition)` fires when unlocked with enough
    -- consecutive good readings all within the lock radius.
    let lockFires : Prop :=
      cfg.enablePositionLock = true ∧ s.isLocked = false ∧
        cfg.lockThreshold ≤ consec ∧
        ∀ r ∈ lastN cfg.lockThreshold buffer2,
          calculateDistance stablePosition r.toPos ≤ cfg.lockRadius
    let lockedPos1 : Option Position :=
      if lockFires then some stablePosition else s.lockedPosition
    let isLocked1 : Bool := if lockFires then true else s.isLocked
    let base1 : Option Position :=
      if lockFires then some stablePosition else s.basePosition
    -- The locked-position branch reads the stale closure values
    -- `s.isLocked` / `s.lockedPosition`.
    let out : Option Position × Bool × Option Position × Position :=
      match s.isLocked, s.lockedPosition, cfg.enablePositionLock with
      | true, some lp, true =>
        if calculateDistance stablePosition lp ≤ cfg.lockRadius then
          (lockedPos1, isLocked1, base1, lp)
        else
          (none, false, some stablePosition, stablePosition)
      | _, _, _ =>
        (lockedPos1, isLocked1, some stablePosition, stablePosition)
    { position := some out.2.2.2,
      lockedPosition := out.1,
      isLocked := out.2.1,
      accuracy := reading.accuracy,
      confidence := reading.confidence,
      signalQuality :=
        if reading.accuracy ≤ 5 then .excellent
        else if reading.accuracy ≤ 10 then .good
        else if reading.accuracy ≤ 20 then .fair
        else .poor,
      gpsBuffer := buffer2,
      lastUpdateTime := now,
      consecutiveGoodReadings := consec,
      basePosition := out.2.2.1 }

/-- `processGPSReading` (useUltraStableGPS.ts lines 158-258).  Within a single
invocation the `useState` reads (`isLocked`, `lockedPosition`) see the
pre-step values captured by the callback closure, while the `useRef` cells
(`gpsBuffer`, `consecutiveGoodReadings`, `basePosition`, `lastUpdateTime`)
mutate immediately; `lockPosition` also starts the auto-unlock timer, an
asynchronous action outside this synchronous step. -/
def processGPSReading (cfg : UltraConfig) (s : UltraState)
    (latIn lngIn accuracyIn now : ℝ) : UltraState :=
  if now - s.lastUpdateTime < cfg.updateInterval then s
  else
    let reading0 : GPSBuffer := mkUltraReading cfg latIn lngIn accuracyIn now
    let valid := validateGPSReading cfg s.basePosition s.gpsBuffer reading0
    let reading : GPSBuffer := { reading0 with isValidated := valid }
    if valid = false then s
    else acceptReading cfg s reading now

end UltraStableGPS

/-- Model of the JavaScript remainder operator `a % b` on reals.  JavaScript
truncates the quotient; the only use below has a positive dividend and
divisor, where truncation and floor agree. -/
def jsMod (a b : ℝ) : ℝ :=
  a - b * ((⌊a / b⌋ : ℤ) : ℝ)

namespace MobileGPS

/-- `GPSReading` of `useMobileGPS.ts` (no confidence field). -/
structure MobileReading where
  lat : ℝ
  lng : ℝ
  accuracy : ℝ
  timestamp : ℝ
  speed : Option ℝ
  heading : Option ℝ

def MobileReading.toPos (r : MobileReading) : Position :=
  ⟨r.lat, r.lng⟩

/-- The scalar Kalman filter state of `useMobileGPS` (`kalmanFilter` ref). -/
structure MobileKalman where
  Q : ℝ
  R : ℝ
  P : ℝ
  X : Position
  K : ℝ

/-- The initial value of the `kalmanFilter` ref. -/
def initialMobileKalman : MobileKalman :=
  { Q := 0.00001, R := 0.01, P := 1, X := ⟨0, 0⟩, K := 0 }

/-- `MobileGPSOptions`; only the fields that influence `processGPSReading`. -/
structure MobileConfig where
  enableFilter : Bool
  accuracyThreshold : ℝ

def mobileDefaults : MobileConfig :=
  { enableFilter := true, accuracyThreshold := 50 }

/-- `applyKalmanFilter` (useMobileGPS.ts lines 48-69). -/
def applyKalmanFilter (filter : MobileKalman) (lastValidPosition : Option MobileReading)
    (newReading : MobileReading) : MobileKalman × Position :=
  match lastValidPosition with
  | none =>
    ({ filter with X := ⟨newReading.lat, newReading.lng⟩ },
     ⟨newReading.lat, newReading.lng⟩)
  | some _ =>
    let P1 := filter.P + filter.Q
    let K1 := P1 / (P1 + filter.R)
    let smoothedLat := filter.X.lat + K1 * (newReading.lat - filter.X.lat)
    let smoothedLng := filter.X.lng + K1 * (newReading.lng - filter.X.lng)
    ({ filter with P := (1 - K1) * P1, X := ⟨smoothedLat, smoothedLng⟩, K := K1 },
     ⟨smoothedLat, smoothedLng⟩)

/-- `isValidReading` (useMobileGPS.ts lines 86-105): accuracy threshold and
implied-speed jump detection. -/
def isValidReading (cfg : MobileConfig) (lastValidPosition : Option MobileReading)
    (reading : MobileReading) : Bool :=
  if cfg.accuracyThreshold < reading.accuracy then false
  else
    match lastValidPosition with
    | some lv =>
      let distance := calculateDistance reading.toPos lv.toPos
      let timeDiff := (reading.timestamp - lv.timestamp) / 1000
      if 100 < distance / timeDiff then false else true
    | none => true

/-- The mutable state of the `useMobileGPS` hook. -/
structure MobileState where
  position : Option Position
  accuracy : ℝ
  speed : ℝ
  heading : ℝ
  readings : List MobileReading
  lastValidPosition : Option MobileReading
  kalman : MobileKalman

/-- The body of `processGPSReading` for a reading that passed validation
(useMobileGPS.ts lines 130-165): Kalman smoothing, speed/heading derivation
and the state updates.  `readings2` is the already-updated history buffer. -/
def acceptReading (cfg : MobileConfig) (s : MobileState) (reading : MobileReading)
    (readings2 : List MobileReading) : MobileState :=
  let kalmanOut : MobileKalman × Position :=
      if cfg.enableFilter = true ∧ (∃ lv, s.lastValidPosition = some lv) then
        applyKalmanFilter s.kalman s.lastValidPosition reading
      else (s.kalman, ⟨reading.lat, reading.lng⟩)
    let smoothedPosition := kalmanOut.2
    let sh : ℝ × ℝ :=
      match s.lastValidPosition with
      | some lv =>
        let timeDiff := reading.timestamp - lv.timestamp
        if 1000 < timeDiff then
          let distance := calculateDistance smoothedPosition lv.toPos
          let calculatedSpeed := distance / (timeDiff / 1000)
          let lat1Rad := lv.lat * Real.pi / 180
          let lat2Rad := smoothedPosition.lat * Real.pi / 180
          let deltaLng := (smoothedPosition.lng - lv.lng) * Real.pi / 180
          let y := Real.sin deltaLng * Real.cos lat2Rad
          let x := Real.cos lat1Rad * Real.sin lat2Rad -
            Real.sin lat1Rad * Real.cos lat2Rad * Real.cos deltaLng
          let calculatedHeading := jsMod (atan2 y x * 180 / Real.pi + 360) 360
          (calculatedSpeed, calculatedHeading)
        else (s.speed, s.heading)
      | none => (s.speed, s.heading)
    { position := some smoothedPosition,
      accuracy := reading.accuracy,
      speed := sh.1,
      heading := sh.2,
      readings := readings2,
      lastValidPosition :=
        some { reading with lat := smoothedPosition.lat, lng := smoothedPosition.lng },
      kalman := kalmanOut.1 }

/-- The raw reading record built at the top of the mobile
`processGPSReading`. -/
def mkMobileReading (latIn lngIn accuracyIn : ℝ) (speedIn headingIn : Option ℝ)
    (now : ℝ) : MobileReading :=
  { lat := latIn, lng := lngIn, accuracy := accuracyIn, timestamp := now,
    speed := speedIn, heading := headingIn }

/-- `processGPSReading` (useMobileGPS.ts lines 107-166).  Note that the
reading is appended to the `readings` history (capacity 10) BEFORE it is
validated; an invalid reading is then dropped without further effect. -/
def processGPSReading (cfg : MobileConfig) (s : MobileState)
    (latIn lngIn accuracyIn : ℝ) (speedIn headingIn : Option ℝ) (now : ℝ) : MobileState :=
  let reading : MobileReading := mkMobileReading latIn lngIn accuracyIn speedIn headingIn now
  let readings1 := s.readings ++ [reading]
  let readings2 := if 10 < readings1.length then readings1.tail else readings1
  if isValidReading cfg s.lastValidPosition reading = false then
    { s with readings := readings2 }
  else acceptReading cfg s reading readings2

end MobileGPS

/-- Modelled from the spec: `m` is a per-axis median of the list `l` of
values when it is one of the values, at least half of the values lie at or
below it, and at least half lie at or above it. -/
def isMedianOf (m : ℝ) (l : List ℝ) : Prop :=
  m ∈ l ∧ l.length ≤ 2 * l.countP (fun x => decide (x ≤ m)) ∧
    l.length ≤ 2 * l.countP (fun x => decide (m ≤ x))

namespace StableGPS

/-- The accuracy factor of the confidence score (factor 1 in
`calculateConfidence`): applied only for a strictly positive accuracy. -/
def accuracyFactor (cfg : StableConfig) (reading : GPSReading) : ℝ :=
  if 0 < reading.accuracy then
    max 0.1 (1 - (reading.accuracy - cfg.minAccuracy) / (cfg.maxAccuracy - cfg.minAccuracy))
  else 1

/-- The consistency factor of the confidence score (factor 2 in
`calculateConfidence`): deviation from the mean of the last three buffered
readings, applied only when more than two readings are buffered. -/
def consistencyFactor (readings : List GPSReading) (reading : GPSReading) : ℝ :=
  if 2 < readings.length then
    (let recent := lastN 3 readings
     let avgLat := (recent.map GPSReading.lat).sum / recent.length
     let avgLng := (recent.map GPSReading.lng).sum / recent.length
     max 0.1 (1 - calculateDistance reading.toPos ⟨avgLat, avgLng⟩ / 20))
  else 1

/-- The frequency factor of the confidence score (factor 3 in
`calculateConfidence`): `0.7` when the reading arrives less than 1000 ms
after the previous valid one, else `1`. -/
def frequencyFactor (lastValidReading : Option GPSReading) (reading : GPSReading) : ℝ :=
  match lastValidReading with
  | some lv => if reading.timestamp - lv.timestamp < 1000 then 0.7 else 1
  | none => 1

/-- Modelled from the spec: the posterior position variance of the standard
linear Kalman update, `(1 - K) * P` with gain `K = P / (P + R)`.  Used to
compare the code (which never writes the covariance) with the spec's
"standard ... covariance update". -/
def standardKalmanP00 (p00 rn : ℝ) : ℝ :=
  (1 - p00 / (p00 + rn)) * p00

/-- A fresh engine state, as created by the hook before the first reading. -/
def stableStateEmpty : StableState :=
  { position := none, smoothedPosition := none, accuracy := 0, confidence := 0,
    signalQuality := .poor, readings := [], lastValidReading := none,
    lastUpdateTime := 0, stabilizedPosition := none, kalman := initialKalmanState }

/-- A buffered reading at the origin with the given confidence and
timestamp; used as concrete test data. -/
def confReading (c ts : ℝ) : GPSReading :=
  { lat := 0, lng := 0, accuracy := 4, timestamp := ts, speed := none,
    heading := none, confidence := c }

/-- A reading at the equatorial antipode of the origin; three of these make
a recent-mean baseline exactly at longitude 180. -/
def farReading : GPSReading :=
  { lat := 0, lng := 180, accuracy := 4, timestamp := 0, speed := none,
    heading := none, confidence := 1 }

/-- An origin reading with accuracy exactly 5 (the shared minimum-accuracy
constant), for which the accuracy factor is exactly 1. -/
def accFiveReading : GPSReading :=
  { lat := 0, lng := 0, accuracy := 5, timestamp := 1000, speed := none,
    heading := none, confidence := 0 }

/-- Concrete first and second readings driving the Kalman filter. -/
def kalmanReading1 : GPSReading :=
  { lat := 1, lng := 2, accuracy := 10, timestamp := 1000, speed := none,
    heading := none, confidence := 1 }

def kalmanReading2 : GPSReading :=
  { lat := 3, lng := 4, accuracy := 10, timestamp := 2000, speed := none,
    heading := none, confidence := 1 }

/-- The Kalman state after the first (initializing) reading. -/
def kalmanStateAfterInit : KalmanState :=
  (applyKalmanFilter initialKalmanState none kalmanReading1).1

end StableGPS

namespace UltraStableGPS

/-- A validated buffered reading at the origin with accuracy 4. -/
def originReading (ts : ℝ) : GPSBuffer :=
  { lat := 0, lng := 0, accuracy := 4, timestamp := ts, confidence := 1,
    isValidated := true }

/-- The equatorial point at longitude 180, antipodal to the origin. -/
def farPoint : Position :=
  ⟨0, 180⟩

/-- The default ultra-stable options with a huge `maxJumpDistance`, so that
a jump from the origin to `farPoint` passes validation. -/
def cfgWideJump : UltraConfig :=
  { ultraDefaults with maxJumpDistance := 1000000000 }

/-- An engine state locked at `farPoint` while the recent buffer readings
are at the origin: the next origin reading forces a movement release. -/
def lockedFarState : UltraState :=
  { position := some farPoint, lockedPosition := some farPoint, isLocked := true,
    accuracy := 4, confidence := 1, signalQuality := .excellent,
    gpsBuffer := [originReading 98000, originReading 99000], lastUpdateTime := 0,
    consecutiveGoodReadings := 5, basePosition := some farPoint }

/-- An unlocked engine state with four consecutive good readings at the
origin: the next origin reading reaches the lock threshold of 5. -/
def unlockedOriginState : UltraState :=
  { position := some ⟨0, 0⟩, lockedPosition := none, isLocked := false,
    accuracy := 4, confidence := 1, signalQuality := .excellent,
    gpsBuffer := [originReading 96000, originReading 97000, originReading 98000,
      originReading 99000],
    lastUpdateTime := 0, consecutiveGoodReadings := 4, basePosition := some ⟨0, 0⟩ }

/-- An engine state locked at the origin: the next origin reading stays
within the lock radius and the output stays frozen. -/
def lockedOriginState : UltraState :=
  { position := some ⟨0, 0⟩, lockedPosition := some ⟨0, 0⟩, isLocked := true,
    accuracy := 4, confidence := 1, signalQuality := .excellent,
    gpsBuffer := [originReading 98000, originReading 99000], lastUpdateTime := 0,
    consecutiveGoodReadings := 6, basePosition := some ⟨0, 0⟩ }

end UltraStableGPS

namespace MobileGPS

/-- A fresh mobile engine state. -/
def mobileStateZero : MobileState :=
  { position := none, accuracy := 0, speed := 0, heading := 0, readings := [],
    lastValidPosition := none, kalman := initialMobileKalman }

end MobileGPS

/-!  Theorems.  First general lemmas about the geometry helpers, then the
claims about the engines. -/

theorem haversineA_comm (p q : Position) : haversineA p q = haversineA q p := by
  simp only [haversineA]
  rw [show (q.lat - p.lat) * Real.pi / 180 / 2 = -((p.lat - q.lat) * Real.pi / 180 / 2) by ring,
    show (q.lng - p.lng) * Real.pi / 180 / 2 = -((p.lng - q.lng) * Real.pi / 180 / 2) by ring,
    Real.sin_neg, Real.sin_neg]
  ring

theorem haversineA_self (p : Position) : haversineA p p = 0 := by
  simp [haversineA]

theorem atan2_zero_one : atan2 0 1 = 0 := by
  simp [atan2]

theorem atan2_one_zero : atan2 1 0 = Real.pi / 2 := by
  norm_num [atan2]

theorem calculateDistance_self (p : Position) : calculateDistance p p = 0 := by
  simp [calculateDistance, haversineA_self, atan2_zero_one]

/-- Nonnegativity of `atan2` when the first argument is nonnegative. -/
theorem atan2_nonneg {y : ℝ} (x : ℝ) (hy : 0 ≤ y) : 0 ≤ atan2 y x := by
  unfold atan2
  by_cases hx : 0 < x
  · rw [if_pos hx]
    have : Real.arctan 0 ≤ Real.arctan (y / x) :=
      Real.arctan_strictMono.monotone (div_nonneg hy hx.le)
    simpa [Real.arctan_zero] using this
  · rw [if_neg hx]
    by_cases hx2 : x < 0
    · rw [if_pos hx2, if_pos hy]
      have h1 := Real.neg_pi_div_two_lt_arctan (y / x)
      have h2 := Real.pi_pos
      linarith
    · rw [if_neg hx2]
      by_cases hy2 : 0 < y
      · rw [if_pos hy2]
        positivity
      · rw [if_neg hy2, if_neg (by linarith : ¬ y < 0)]

theorem calculateDistance_nonneg (p q : Position) : 0 ≤ calculateDistance p q := by
  unfold calculateDistance
  have h := atan2_nonneg (Real.sqrt (1 - haversineA p q)) (Real.sqrt_nonneg (haversineA p q))
  positivity

/-- On the equator, the point at longitude 180 is antipodal to the origin:
the Haversine intermediate value is exactly 1. -/
theorem haversineA_equator_antipode : haversineA ⟨0, 0⟩ ⟨0, 180⟩ = 1 := by
  simp only [haversineA]
  rw [show ((0:ℝ) - 0) * Real.pi / 180 / 2 = 0 by ring,
      show ((180:ℝ) - 0) * Real.pi / 180 / 2 = Real.pi / 2 by ring,
      show (0:ℝ) * Real.pi / 180 = 0 by ring]
  rw [Real.sin_zero, Real.cos_zero, Real.sin_pi_div_two]
  norm_num

/-- The Haversine distance from the origin to the equatorial antipode is
exactly `6371000 * π` metres. -/
theorem calculateDistance_equator_antipode :
    calculateDistance ⟨0, 0⟩ ⟨0, 180⟩ = 6371000 * Real.pi := by
  simp only [calculateDistance, haversineA_equator_antipode]
  norm_num [atan2_one_zero]
  ring

/-- Claim C8: for every pair of coordinates `a` and `b`,
`distanceMeters(a,b) = distanceMeters(b,a)` (the Haversine distance with
Earth radius 6371000 m is symmetric), and `distanceMeters(a,a) = 0`. -/
theorem claim_C8 :
    (∀ a b : Position, calculateDistance a b = calculateDistance b a) ∧
    ∀ a : Position, calculateDistance a a = 0 := by
  constructor
  · intro a b
    unfold calculateDistance
    rw [haversineA_comm]
  · intro a
    exact calculateDistance_self a

namespace StableGPS

/-- The sequential factor multiplication in `calculateConfidence` equals the
clamped product of the three named factors. -/
theorem calculateConfidence_eq_product (cfg : StableConfig) (readings : List GPSReading)
    (lastValidReading : Option GPSReading) (reading : GPSReading) :
    calculateConfidence cfg readings lastValidReading reading =
      max 0.1 (min 1.0 (accuracyFactor cfg reading * consistencyFactor readings reading *
        frequencyFactor lastValidReading reading)) := by
  simp only [calculateConfidence, accuracyFactor, consistencyFactor, frequencyFactor]
  cases lastValidReading with
  | none => split_ifs <;> ring_nf
  | some lv =>
    by_cases ht : reading.timestamp - lv.timestamp < 1000 <;>
      simp only [ht, if_true, if_false, ite_true, ite_false] <;> split_ifs <;> ring_nf

/-- Inserting the factor's own 0.1 floor under the final clamp changes
nothing: `max 0.1 (min 1 (max 0.1 x)) = max 0.1 (min 1 x)`. -/
theorem clamp_absorb (x : ℝ) : max 0.1 (min 1.0 (max 0.1 x)) = max 0.1 (min 1.0 x) := by
  rcases le_total x 0.1 with h | h
  · rw [max_eq_left h, min_eq_right (by norm_num : (0.1:ℝ) ≤ 1.0), max_self,
      min_eq_right (le_trans h (by norm_num)), max_eq_left h]
  · rw [max_eq_right h]

/-- The consistency factor against a recent mean at the equatorial antipode
is the floor value 0.1 (the deviation is about 20000 km). -/
theorem consistencyFactor_far :
    consistencyFactor [farReading, farReading, farReading] accFiveReading = 0.1 := by
  simp only [consistencyFactor]
  rw [if_pos (by norm_num : 2 < ([farReading, farReading, farReading] :
    List GPSReading).length)]
  have hl : lastN 3 [farReading, farReading, farReading] =
      [farReading, farReading, farReading] := by
    simp [lastN]
  rw [hl]
  have hpos : (⟨(List.map GPSReading.lat [farReading, farReading, farReading]).sum /
        ([farReading, farReading, farReading] : List GPSReading).length,
      (List.map GPSReading.lng [farReading, farReading, farReading]).sum /
        ([farReading, farReading, farReading] : List GPSReading).length⟩ : Position) =
      ⟨0, 180⟩ := by
    norm_num [farReading]
  rw [hpos]
  have htp : accFiveReading.toPos = (⟨0, 0⟩ : Position) := by
    simp [GPSReading.toPos, accFiveReading]
  rw [htp, calculateDistance_equator_antipode]
  apply max_eq_left
  nlinarith [Real.pi_gt_three]

/-- Claim C6 counterexample: the ultra-stable engine's scorer
(useUltraStableGPS.ts lines 175-178) gives an accuracy-5 reading confidence
1 regardless of its deviation from the recent mean, while the claimed
clamped three-factor product — with a consistency factor of 0.1 for a
reading far from the recent mean, and no previous reading — is 0.1.  The
claim is false for that cited scorer. -/
theorem claim_C6_counterexample :
    UltraStableGPS.ultraConfidence UltraStableGPS.ultraDefaults 5 = 1 ∧
    max 0.1 (min 1.0 (accuracyFactor stableDefaults accFiveReading *
      consistencyFactor [farReading, farReading, farReading] accFiveReading *
      frequencyFactor none accFiveReading)) = 0.1 ∧
    (0.1 : ℝ) ≠ 1 := by
  refine ⟨?_, ?_, by norm_num⟩
  · norm_num [UltraStableGPS.ultraConfidence, UltraStableGPS.ultraDefaults,
      max_def, min_def]
  · have hacc : accuracyFactor stableDefaults accFiveReading = 1 := by
      norm_num [accuracyFactor, stableDefaults, accFiveReading, max_def]
    have hfreq : frequencyFactor none accFiveReading = 1 := rfl
    rw [hacc, consistencyFactor_far, hfreq]
    norm_num

/-- Claim C6 (amended): the stable-GPS scorer `calculateConfidence` equals
the product of the accuracy factor, the consistency-with-recent-mean factor
and the frequency factor (0.7 when the reading arrives less than 1000 ms
after the previous one, else 1.0), clamped to `0.1 ≤ confidence ≤ 1.0`.
The ultra-stable engine's scorer computes only the clamped accuracy factor
(with `maxAccuracy` fixed at 50): for a reading of positive accuracy its
confidence equals the clamp of the accuracy factor alone — a product with
no consistency or frequency contribution. -/
theorem claim_C6 (cfg : StableConfig) (readings : List GPSReading)
    (lastValidReading : Option GPSReading) (reading : GPSReading) :
    (calculateConfidence cfg readings lastValidReading reading =
      max 0.1 (min 1.0 (accuracyFactor cfg reading * consistencyFactor readings reading *
        frequencyFactor lastValidReading reading))) ∧
    ∀ (ucfg : UltraStableGPS.UltraConfig) (sc : StableConfig),
      sc.minAccuracy = ucfg.minimumAccuracy → sc.maxAccuracy = 50 →
      0 < reading.accuracy →
      UltraStableGPS.ultraConfidence ucfg reading.accuracy =
        max 0.1 (min 1.0 (accuracyFactor sc reading * 1 * 1)) := by
  constructor
  · exact calculateConfidence_eq_product cfg readings lastValidReading reading
  · intro ucfg sc hmin hmax hposa
    unfold UltraStableGPS.ultraConfidence accuracyFactor
    rw [if_pos hposa, hmin, hmax, mul_one, mul_one]
    exact (clamp_absorb _).symm

/-- Claim C6 witness: both scorer equations at concrete inputs — the
stable scorer on an empty history, and the ultra scorer (defaults) against
the default stable constants for the accuracy-5 origin reading. -/
theorem claim_C6_witness :
    (calculateConfidence stableDefaults [] none accFiveReading =
      max 0.1 (min 1.0 (accuracyFactor stableDefaults accFiveReading *
        consistencyFactor [] accFiveReading * frequencyFactor none accFiveReading))) ∧
    UltraStableGPS.ultraConfidence UltraStableGPS.ultraDefaults accFiveReading.accuracy =
      max 0.1 (min 1.0 (accuracyFactor stableDefaults accFiveReading * 1 * 1)) :=
  ⟨(claim_C6 stableDefaults [] none accFiveReading).1,
   (claim_C6 stableDefaults [] none accFiveReading).2 UltraStableGPS.ultraDefaults
     stableDefaults rfl rfl (by norm_num [accFiveReading])⟩

/-- The consistency factor always lies in `[0, 1]` (the deviation is a
nonnegative distance). -/
theorem consistencyFactor_mem (readings : List GPSReading) (reading : GPSReading) :
    0 ≤ consistencyFactor readings reading ∧ consistencyFactor readings reading ≤ 1 := by
  unfold consistencyFactor
  split_ifs with h
  · constructor
    · exact le_trans (by norm_num) (le_max_left _ _)
    · apply max_le (by norm_num)
      have hD := calculateDistance_nonneg reading.toPos
        ⟨(List.map GPSReading.lat (lastN 3 readings)).sum / (lastN 3 readings).length,
         (List.map GPSReading.lng (lastN 3 readings)).sum / (lastN 3 readings).length⟩
      have h20 : 0 ≤ calculateDistance reading.toPos
          ⟨(List.map GPSReading.lat (lastN 3 readings)).sum / (lastN 3 readings).length,
           (List.map GPSReading.lng (lastN 3 readings)).sum / (lastN 3 readings).length⟩ / 20 := by
        positivity
      linarith
  · norm_num

/-- The frequency factor always lies in `[0, 1]`. -/
theorem frequencyFactor_mem (lastValidReading : Option GPSReading) (reading : GPSReading) :
    0 ≤ frequencyFactor lastValidReading reading ∧
      frequencyFactor lastValidReading reading ≤ 1 := by
  cases lastValidReading with
  | none => norm_num [frequencyFactor]
  | some lv =>
    simp only [frequencyFactor]
    split_ifs <;> norm_num

/-- When the accuracy exceeds `maxAccuracy` (with sane bounds
`0 ≤ minAccuracy < maxAccuracy`), the confidence score is exactly the floor
value 0.1. -/
theorem calculateConfidence_eq_floor (cfg : StableConfig) (readings : List GPSReading)
    (lastValidReading : Option GPSReading) (reading : GPSReading)
    (h0 : 0 ≤ cfg.minAccuracy) (h1 : cfg.minAccuracy < cfg.maxAccuracy)
    (h2 : cfg.maxAccuracy < reading.accuracy) :
    calculateConfidence cfg readings lastValidReading reading = 0.1 := by
  rw [calculateConfidence_eq_product]
  have hf1 : accuracyFactor cfg reading = 0.1 := by
    unfold accuracyFactor
    rw [if_pos (by linarith : (0:ℝ) < reading.accuracy)]
    apply max_eq_left
    have hd : 0 < cfg.maxAccuracy - cfg.minAccuracy := by linarith
    have : 1 < (reading.accuracy - cfg.minAccuracy) / (cfg.maxAccuracy - cfg.minAccuracy) := by
      rw [lt_div_iff₀ hd]
      linarith
    linarith
  obtain ⟨hf2a, hf2b⟩ := consistencyFactor_mem readings reading
  obtain ⟨hf3a, hf3b⟩ := frequencyFactor_mem lastValidReading reading
  rw [hf1]
  have hprod : 0.1 * consistencyFactor readings reading *
      frequencyFactor lastValidReading reading ≤ 0.1 := by
    nlinarith
  exact max_eq_left (le_trans (min_le_right _ _) hprod)

/-- Claim C9: a raw reading whose accuracy is strictly below the configured
`minAccuracy` is rejected by the stable-GPS validator, and the whole ingest
step leaves the engine state unchanged (the reading never enters the buffer
and never updates the reported position). -/
theorem claim_C9 (cfg : StableConfig) (accuracyIn : ℝ)
    (hacc : accuracyIn < cfg.minAccuracy) :
    (∀ (lv : Option GPSReading) (r : GPSReading), r.accuracy = accuracyIn →
      isValidReading cfg lv r = false) ∧
    ∀ (s : StableState) (latIn lngIn : ℝ) (speedIn headingIn : Option ℝ) (now : ℝ),
      processGPSReading cfg s latIn lngIn accuracyIn speedIn headingIn now = s := by
  have hval : ∀ (lv : Option GPSReading) (r : GPSReading), r.accuracy = accuracyIn →
      isValidReading cfg lv r = false := by
    intro lv r hr
    unfold isValidReading
    rw [if_pos (Or.inl (hr ▸ hacc))]
  refine ⟨hval, ?_⟩
  intro s latIn lngIn speedIn headingIn now
  simp only [processGPSReading]
  split
  · rfl
  · split
    · split
      · rfl
      · rw [if_pos (hval _ _ rfl)]
    · split
      · rfl
      · rw [if_pos (hval _ _ rfl)]

/-- Claim C3: when confidence filtering is enabled, confidence-floor
rejection happens before insertion into the history buffer: a reading whose
confidence is below 0.3 is discarded with the whole engine state unchanged,
and every ingest step preserves the invariant that each buffered reading has
confidence at least 0.3. -/
theorem claim_C3 (cfg : StableConfig) (hcf : cfg.enableConfidenceFiltering = true) :
    (∀ (s : StableState) (latIn lngIn accuracyIn : ℝ) (speedIn headingIn : Option ℝ)
      (now : ℝ),
      calculateConfidence cfg s.readings s.lastValidReading
        (mkStableReading latIn lngIn accuracyIn speedIn headingIn now) < 0.3 →
      processGPSReading cfg s latIn lngIn accuracyIn speedIn headingIn now = s) ∧
    ∀ (s : StableState) (latIn lngIn accuracyIn : ℝ) (speedIn headingIn : Option ℝ)
      (now : ℝ),
      (∀ r ∈ s.readings, 0.3 ≤ r.confidence) →
      ∀ r ∈ (processGPSReading cfg s latIn lngIn accuracyIn speedIn headingIn now).readings,
        0.3 ≤ r.confidence := by
  constructor
  · intro s latIn lngIn accuracyIn speedIn headingIn now hconf
    simp only [processGPSReading]
    by_cases h1 : now - s.lastUpdateTime < cfg.minUpdateInterval
    · rw [if_pos h1]
    · rw [if_neg h1, if_pos hcf, if_pos ⟨hcf, hconf⟩]
  · intro s latIn lngIn accuracyIn speedIn headingIn now hinv r hr
    simp only [processGPSReading] at hr
    by_cases h1 : now - s.lastUpdateTime < cfg.minUpdateInterval
    · rw [if_pos h1] at hr
      exact hinv r hr
    · rw [if_neg h1, if_pos hcf] at hr
      set c := calculateConfidence cfg s.readings s.lastValidReading
        (mkStableReading latIn lngIn accuracyIn speedIn headingIn now) with hc
      by_cases h2 : cfg.enableConfidenceFiltering = true ∧ c < 0.3
      · rw [if_pos h2] at hr
        exact hinv r hr
      · rw [if_neg h2] at hr
        have hge : 0.3 ≤ c := by
          by_contra hlt
          exact h2 ⟨hcf, lt_of_not_le hlt⟩
        set rd : GPSReading :=
          { mkStableReading latIn lngIn accuracyIn speedIn headingIn now with
            confidence := c } with hrd
        by_cases h3 : isValidReading cfg s.lastValidReading rd = false
        · rw [if_pos h3] at hr
          exact hinv r hr
        · rw [if_neg h3] at hr
          simp only [acceptReading] at hr
          have hmem : r ∈ s.readings ++ [rd] := by
            by_cases h4 : 20 < (s.readings ++ [rd]).length
            · rw [if_pos h4] at hr
              exact (List.tail_sublist _).subset hr
            · rw [if_neg h4] at hr
              exact hr
          rcases List.mem_append.mp hmem with hm | hm
          · exact hinv r hm
          · rw [List.mem_singleton.mp hm]
            exact hge

/-- Claim C3 witness: with the default configuration, a fresh engine, and a
reading of accuracy 49 m, the computed confidence is 0.1 < 0.3 and the state
is unchanged; and a state whose buffer holds a confidence-0.5 reading keeps
the invariant after an accepted origin reading. -/
theorem claim_C3_witness :
    (processGPSReading stableDefaults stableStateEmpty 0 0 49 none none 1000 =
      stableStateEmpty) ∧
    ∀ r ∈ (processGPSReading stableDefaults
        { stableStateEmpty with readings := [confReading 0.5 500] }
        0 0 4 none none 1000).readings, 0.3 ≤ r.confidence := by
  constructor
  · apply (claim_C3 stableDefaults rfl).1
    norm_num [calculateConfidence, stableStateEmpty, mkStableReading, stableDefaults,
      max_def, min_def]
  · apply (claim_C3 stableDefaults rfl).2
    intro r hr
    simp only [stableStateEmpty, List.mem_singleton] at hr
    rw [hr]
    norm_num [confReading]

/-- Claim C9 witness: with the default configuration, a reading of accuracy
2 m (better than the 5 m lower bound) is rejected and a fresh engine state
is unchanged by ingesting it. -/
theorem claim_C9_witness :
    (∀ (lv : Option GPSReading) (r : GPSReading), r.accuracy = 2 →
      isValidReading stableDefaults lv r = false) ∧
    ∀ (s : StableState) (latIn lngIn : ℝ) (speedIn headingIn : Option ℝ) (now : ℝ),
      processGPSReading stableDefaults s latIn lngIn 2 speedIn headingIn now = s :=
  claim_C9 stableDefaults 2 (by norm_num [stableDefaults])

end StableGPS

/-- Claim C5 counterexample: in the mobile engine a reading with accuracy
200 m (threshold 50 m) IS appended to the readings history buffer — the
append happens before validation — contradicting "never enters the readings
buffer, changes no engine state". -/
theorem claim_C5_counterexample :
    MobileGPS.mkMobileReading 1 2 200 none none 5000 ∈
      (MobileGPS.processGPSReading MobileGPS.mobileDefaults MobileGPS.mobileStateZero
        1 2 200 none none 5000).readings ∧
    (MobileGPS.processGPSReading MobileGPS.mobileDefaults MobileGPS.mobileStateZero
        1 2 200 none none 5000).readings ≠ MobileGPS.mobileStateZero.readings := by
  have hv : MobileGPS.isValidReading MobileGPS.mobileDefaults
      MobileGPS.mobileStateZero.lastValidPosition
      (MobileGPS.mkMobileReading 1 2 200 none none 5000) = false := by
    norm_num [MobileGPS.isValidReading, MobileGPS.mobileDefaults,
      MobileGPS.mkMobileReading]
  simp only [MobileGPS.processGPSReading, hv]
  norm_num [MobileGPS.mobileStateZero]

/-- Claim C5 (amended): a reading whose accuracy exceeds the configured
maximum is always rejected.  In the stable engine (with sane accuracy bounds
`0 ≤ minAccuracy < maxAccuracy`) the whole ingest step is a no-op: the
reading never enters the buffer and no state changes.  In the mobile engine
the reading is appended to the readings history buffer (capacity 10) before
validation, but the rejection then leaves every other field — position,
accuracy, speed, heading, last valid position, filter state — unchanged. -/
theorem claim_C5 (accuracyIn : ℝ) :
    (∀ (cfg : StableGPS.StableConfig) (s : StableGPS.StableState) (latIn lngIn : ℝ)
      (speedIn headingIn : Option ℝ) (now : ℝ),
      0 ≤ cfg.minAccuracy → cfg.minAccuracy < cfg.maxAccuracy →
      cfg.maxAccuracy < accuracyIn →
      StableGPS.processGPSReading cfg s latIn lngIn accuracyIn speedIn headingIn now = s) ∧
    ∀ (cfg : MobileGPS.MobileConfig) (m : MobileGPS.MobileState) (latIn lngIn : ℝ)
      (speedIn headingIn : Option ℝ) (now : ℝ),
      cfg.accuracyThreshold < accuracyIn →
      MobileGPS.processGPSReading cfg m latIn lngIn accuracyIn speedIn headingIn now =
        { m with readings :=
            if 10 < (m.readings ++
                [MobileGPS.mkMobileReading latIn lngIn accuracyIn speedIn headingIn now]).length then
              (m.readings ++
                [MobileGPS.mkMobileReading latIn lngIn accuracyIn speedIn headingIn now]).tail
            else m.readings ++
              [MobileGPS.mkMobileReading latIn lngIn accuracyIn speedIn headingIn now] } := by
  constructor
  · intro cfg s latIn lngIn speedIn headingIn now h0 h1 h2
    simp only [StableGPS.processGPSReading]
    by_cases ht : now - s.lastUpdateTime < cfg.minUpdateInterval
    · rw [if_pos ht]
    · rw [if_neg ht]
      by_cases hcf : cfg.enableConfidenceFiltering = true
      · rw [if_pos hcf,
          StableGPS.calculateConfidence_eq_floor cfg s.readings s.lastValidReading
            (StableGPS.mkStableReading latIn lngIn accuracyIn speedIn headingIn now)
            h0 h1 h2,
          if_pos ⟨hcf, by norm_num⟩]
      · rw [if_neg hcf, if_neg (fun h => hcf h.1)]
        have hv : StableGPS.isValidReading cfg s.lastValidReading
            { StableGPS.mkStableReading latIn lngIn accuracyIn speedIn headingIn now with
              confidence := (1.0 : ℝ) } = false := by
          unfold StableGPS.isValidReading
          simp only [StableGPS.mkStableReading]
          rw [if_pos (Or.inr h2)]
        rw [if_pos hv]
  · intro cfg m latIn lngIn speedIn headingIn now hacc
    have hv : MobileGPS.isValidReading cfg m.lastValidPosition
        (MobileGPS.mkMobileReading latIn lngIn accuracyIn speedIn headingIn now) = false := by
      unfold MobileGPS.isValidReading
      simp only [MobileGPS.mkMobileReading]
      rw [if_pos hacc]
    simp only [MobileGPS.processGPSReading, hv]
    norm_num

namespace StableGPS

/-- Claim C1 counterexample: after a second accepted reading the filter's
covariance entry `P[0][0]` is still the initial 1000, while the standard
linear Kalman covariance update `(1 - K)·P` with the adapted `R = 1` would
give a different value — the code performs no covariance update at all, so
the claim's "standard linear Kalman gain, state, and covariance update" is
false in its covariance part. -/
theorem claim_C1_counterexample :
    (applyKalmanFilter kalmanStateAfterInit (some kalmanReading1) kalmanReading2).1.P 0 0
        = 1000 ∧
    (applyKalmanFilter kalmanStateAfterInit (some kalmanReading1) kalmanReading2).1.R = 1 ∧
    standardKalmanP00 1000 1 ≠ 1000 := by
  refine ⟨?_, ?_, ?_⟩
  · simp [applyKalmanFilter, kalmanStateAfterInit, initialKalmanState]
  · simp [applyKalmanFilter, kalmanStateAfterInit, initialKalmanState, kalmanReading2]
    norm_num
  · norm_num [standardKalmanP00]

/-- Claim C1 (amended): on the first accepted reading `applyKalmanFilter`
initializes the state vector to `[lat, lng, 0, 0]` and returns the raw
coordinate unchanged, with the covariance being the 1000-diagonal set at
construction; on every subsequent reading it predicts position as
`lat + velLat·dt` and `lng + velLng·dt` (velocity held constant), sets
`R = max(0.1, accuracyMeters / 10)`, and updates the state with the gain
`K = P[:,0..1] / (P[0][0] + R)` applied to the innovation — but it never
updates the covariance matrix `P`, which stays at its initial value. -/
theorem claim_C1 (st : KalmanState) (lv : Option GPSReading) (r : GPSReading) :
    (applyKalmanFilter st lv r).1.P = st.P ∧
    (st.initialized = false →
      applyKalmanFilter st lv r =
        ({ st with
            x0 := r.lat
            x1 := r.lng
            x2 := 0
            x3 := 0
            initialized := true },
         ⟨r.lat, r.lng⟩)) ∧
    ∀ lvr, st.initialized = true → lv = some lvr →
      (let dt := (r.timestamp - lvr.timestamp) / 1000
       let R1 := max 0.1 (r.accuracy / 10)
       let S := st.P 0 0 + R1
       let y0 := r.lat - (st.x0 + st.x2 * dt)
       let y1 := r.lng - (st.x1 + st.x3 * dt)
       (applyKalmanFilter st lv r).1.R = R1 ∧
       (applyKalmanFilter st lv r).2.lat =
         st.x0 + st.x2 * dt + st.P 0 0 / S * y0 + st.P 0 1 / S * y1 ∧
       (applyKalmanFilter st lv r).2.lng =
         st.x1 + st.x3 * dt + st.P 1 0 / S * y0 + st.P 1 1 / S * y1 ∧
       (applyKalmanFilter st lv r).1.x0 = (applyKalmanFilter st lv r).2.lat ∧
       (applyKalmanFilter st lv r).1.x1 = (applyKalmanFilter st lv r).2.lng ∧
       (applyKalmanFilter st lv r).1.x2 =
         st.x2 + st.P 2 0 / S * y0 + st.P 2 1 / S * y1 ∧
       (applyKalmanFilter st lv r).1.x3 =
         st.x3 + st.P 3 0 / S * y0 + st.P 3 1 / S * y1) := by
  refine ⟨?_, ?_, ?_⟩
  · unfold applyKalmanFilter
    split_ifs <;> rfl
  · intro h
    unfold applyKalmanFilter
    rw [if_pos h]
  · intro lvr hinit hlv
    subst hlv
    unfold applyKalmanFilter
    rw [if_neg (by simp [hinit])]
    exact ⟨rfl, rfl, rfl, rfl, rfl, rfl, rfl⟩

/-- Claim C1 witness: the first reading initializes the state and passes
through, and the second reading sets `R = max(0.1, accuracy / 10)`. -/
theorem claim_C1_witness :
    (applyKalmanFilter initialKalmanState none kalmanReading1 =
      ({ initialKalmanState with
          x0 := kalmanReading1.lat
          x1 := kalmanReading1.lng
          x2 := 0
          x3 := 0
          initialized := true },
       ⟨kalmanReading1.lat, kalmanReading1.lng⟩)) ∧
    (applyKalmanFilter kalmanStateAfterInit (some kalmanReading1) kalmanReading2).1.R =
      max 0.1 (kalmanReading2.accuracy / 10) :=
  ⟨(claim_C1 initialKalmanState none kalmanReading1).2.1 rfl,
   ((claim_C1 kalmanStateAfterInit (some kalmanReading1) kalmanReading2).2.2 kalmanReading1
      (by simp [kalmanStateAfterInit, applyKalmanFilter, initialKalmanState]) rfl).1⟩

end StableGPS

/-- Claim C5 witness: with the default configurations, a reading of
accuracy 200 m leaves a fresh stable engine unchanged, and in the mobile
engine only appends to the history buffer. -/
theorem claim_C5_witness :
    (StableGPS.processGPSReading StableGPS.stableDefaults StableGPS.stableStateEmpty
        3 4 200 none none 1000 = StableGPS.stableStateEmpty) ∧
    MobileGPS.processGPSReading MobileGPS.mobileDefaults MobileGPS.mobileStateZero
        3 4 200 none none 1000 =
      { MobileGPS.mobileStateZero with
        readings := [MobileGPS.mkMobileReading 3 4 200 none none 1000] } := by
  constructor
  · exact (claim_C5 200).1 StableGPS.stableDefaults StableGPS.stableStateEmpty 3 4
      none none 1000 (by norm_num [StableGPS.stableDefaults])
      (by norm_num [StableGPS.stableDefaults]) (by norm_num [StableGPS.stableDefaults])
  · rw [(claim_C5 200).2 MobileGPS.mobileDefaults MobileGPS.mobileStateZero 3 4
      none none 1000 (by norm_num [MobileGPS.mobileDefaults])]
    norm_num [MobileGPS.mobileStateZero]

namespace UltraStableGPS

/-- With the default 5 m minimum accuracy, a 4 m reading gets confidence 1. -/
theorem ultraConfidence_eval {cfg : UltraConfig} (h : cfg.minimumAccuracy = 5) :
    ultraConfidence cfg 4 = 1 := by
  norm_num [ultraConfidence, h, max_def, min_def]

/-- A reading that passes `validateGPSReading` satisfies the minimum
accuracy requirement (the validator's first check). -/
theorem validateGPSReading_true_acc (cfg : UltraConfig) (base : Option Position)
    (buf : List GPSBuffer) (rd : GPSBuffer)
    (h : validateGPSReading cfg base buf rd = true) :
    rd.accuracy ≤ cfg.minimumAccuracy := by
  by_contra hgt
  push_neg at hgt
  unfold validateGPSReading at h
  rw [if_pos hgt] at h
  exact Bool.false_ne_true h

/-- Evaluation: validation succeeds for an origin reading against a buffer
of origin readings, when the accuracy is good enough, the base position is
within jump range of the origin, and the lock radius is nonnegative. -/
theorem validateGPSReading_origin (cfg : UltraConfig) (b : Position)
    (buf : List GPSBuffer) (acc now : ℝ)
    (hacc : ¬ (cfg.minimumAccuracy < acc))
    (hbuf : ∀ r ∈ buf, r.lat = 0 ∧ r.lng = 0)
    (hjump : ¬ (cfg.maxJumpDistance < calculateDistance ⟨0, 0⟩ b))
    (hlr : 0 ≤ cfg.lockRadius) :
    validateGPSReading cfg (some b) buf (mkUltraReading cfg 0 0 acc now) = true := by
  unfold validateGPSReading
  simp only [mkUltraReading, GPSBuffer.toPos]
  split_ifs with h1 h2
  · exfalso
    obtain ⟨b2, hb2, hd⟩ := h1
    injection hb2 with hb2e
    subst hb2e
    exact hjump hd
  · exfalso
    obtain ⟨hlen, hd⟩ := h2
    have hlat : (List.map GPSBuffer.lat (lastN 3 buf)).sum = 0 := by
      apply List.sum_eq_zero
      intro x hx
      obtain ⟨rr, hrr, hxeq⟩ := List.mem_map.mp hx
      rw [← hxeq]
      exact (hbuf rr ((List.drop_sublist _ _).subset hrr)).1
    have hlng : (List.map GPSBuffer.lng (lastN 3 buf)).sum = 0 := by
      apply List.sum_eq_zero
      intro x hx
      obtain ⟨rr, hrr, hxeq⟩ := List.mem_map.mp hx
      rw [← hxeq]
      exact (hbuf rr ((List.drop_sublist _ _).subset hrr)).2
    rw [hlat, hlng, zero_div, calculateDistance_self] at hd
    linarith
  · rfl

/-- Evaluation: the weighted average of a nonempty buffer of origin
readings, all passing the recency/accuracy/validation filter with positive
weight, is the origin. -/
theorem calculateWeightedAverage_origin (cfg : UltraConfig) (now : ℝ)
    (buf : List GPSBuffer) (hne : buf ≠ [])
    (hbuf : ∀ r ∈ buf, r.lat = 0 ∧ r.lng = 0 ∧
      (now - r.timestamp < 10000 ∧ r.accuracy ≤ cfg.minimumAccuracy * 2 ∧
        r.isValidated = true) ∧
      0 < (1 / max r.accuracy 1) * (1 - (now - r.timestamp) / 10000) * r.confidence) :
    calculateWeightedAverage cfg now buf = some ⟨0, 0⟩ := by
  unfold calculateWeightedAverage
  have hfilter : (buf.filter fun r =>
      decide (now - r.timestamp < 10000 ∧ r.accuracy ≤ cfg.minimumAccuracy * 2 ∧
        r.isValidated = true)) = buf :=
    List.filter_eq_self.mpr fun r hr => decide_eq_true (hbuf r hr).2.2.1
  have hlen : ¬ (buf.length = 0) := by
    simpa [List.length_eq_zero] using hne
  rw [if_neg hlen, hfilter, if_neg hlen]
  have hpos : 0 < (buf.map fun r =>
      (1 / max r.accuracy 1) * (1 - (now - r.timestamp) / 10000) * r.confidence).sum := by
    apply List.sum_pos
    · intro a ha
      obtain ⟨rr, hrr, hxeq⟩ := List.mem_map.mp ha
      rw [← hxeq]
      exact (hbuf rr hrr).2.2.2
    · simpa [List.map_eq_nil_iff] using hne
  have hlats : (buf.map fun r => r.lat *
      ((1 / max r.accuracy 1) * (1 - (now - r.timestamp) / 10000) * r.confidence)).sum = 0 := by
    apply List.sum_eq_zero
    intro x hx
    obtain ⟨rr, hrr, hxeq⟩ := List.mem_map.mp hx
    rw [← hxeq, (hbuf rr hrr).1, zero_mul]
  have hlngs : (buf.map fun r => r.lng *
      ((1 / max r.accuracy 1) * (1 - (now - r.timestamp) / 10000) * r.confidence)).sum = 0 := by
    apply List.sum_eq_zero
    intro x hx
    obtain ⟨rr, hrr, hxeq⟩ := List.mem_map.mp hx
    rw [← hxeq, (hbuf rr hrr).2.1, zero_mul]
  rw [if_neg (ne_of_gt hpos)]
  rw [hlats, hlngs, zero_div]

/-- Claim C2 (amended): while locked, an accepted reading whose stabilized
position lies strictly more than `lockRadius` from `lockedPosition` makes
the engine immediately unlock (`isLocked` becomes false), clear
`lockedPosition`, and treat the new stabilized reading as the baseline and
output position — but `consecutiveGoodReadings` is NOT reset to 0: since
the reading was accepted it is incremented instead. -/
theorem claim_C2 (cfg : UltraConfig) (s : UltraState) (latIn lngIn accuracyIn now : ℝ)
    (lp stable : Position)
    (hlock : s.isLocked = true)
    (hlp : s.lockedPosition = some lp)
    (hen : cfg.enablePositionLock = true)
    (hthr : ¬ (now - s.lastUpdateTime < cfg.updateInterval))
    (hvalid : validateGPSReading cfg s.basePosition s.gpsBuffer
      (mkUltraReading cfg latIn lngIn accuracyIn now) = true)
    (havg : calculateWeightedAverage cfg now
      (ultraPostBuffer cfg s
        { mkUltraReading cfg latIn lngIn accuracyIn now with isValidated := true }) =
      some stable)
    (hfar : ¬ (calculateDistance stable lp ≤ cfg.lockRadius)) :
    (processGPSReading cfg s latIn lngIn accuracyIn now).isLocked = false ∧
    (processGPSReading cfg s latIn lngIn accuracyIn now).lockedPosition = none ∧
    (processGPSReading cfg s latIn lngIn accuracyIn now).basePosition = some stable ∧
    (processGPSReading cfg s latIn lngIn accuracyIn now).position = some stable ∧
    (processGPSReading cfg s latIn lngIn accuracyIn now).consecutiveGoodReadings =
      s.consecutiveGoodReadings + 1 := by
  have hacc : accuracyIn ≤ cfg.minimumAccuracy := by
    have := validateGPSReading_true_acc cfg s.basePosition s.gpsBuffer
      (mkUltraReading cfg latIn lngIn accuracyIn now) hvalid
    simpa [mkUltraReading] using this
  simp only [processGPSReading]
  rw [if_neg hthr, hvalid, if_neg (by simp : ¬ (true = false))]
  simp only [acceptReading]
  rw [havg]
  simp only [mkUltraReading]
  simp only [if_pos hacc, hlock, hlp, hen, if_neg hfar]
  exact ⟨trivial, trivial, trivial, trivial, trivial⟩

/-- The distance from the origin to `farPoint` is `6371000 π` metres. -/
theorem farPoint_dist : calculateDistance ⟨0, 0⟩ farPoint = 6371000 * Real.pi :=
  calculateDistance_equator_antipode

theorem lockedFar_thr :
    ¬ ((100000 : ℝ) - lockedFarState.lastUpdateTime < cfgWideJump.updateInterval) := by
  norm_num [lockedFarState, cfgWideJump, ultraDefaults]

theorem lockedFar_valid :
    validateGPSReading cfgWideJump lockedFarState.basePosition lockedFarState.gpsBuffer
      (mkUltraReading cfgWideJump 0 0 4 100000) = true := by
  show validateGPSReading cfgWideJump (some farPoint)
    [originReading 98000, originReading 99000] (mkUltraReading cfgWideJump 0 0 4 100000) = true
  apply validateGPSReading_origin
  · norm_num [cfgWideJump, ultraDefaults]
  · intro r hr
    rcases List.mem_cons.mp hr with h | h
    · rw [h]
      norm_num [originReading]
    · rw [List.mem_singleton.mp h]
      norm_num [originReading]
  · rw [not_lt, farPoint_dist]
    have hpi := Real.pi_le_four
    have : cfgWideJump.maxJumpDistance = 1000000000 := rfl
    rw [this]
    nlinarith
  · norm_num [cfgWideJump, ultraDefaults]

theorem lockedFar_buffer :
    ultraPostBuffer cfgWideJump lockedFarState
      { mkUltraReading cfgWideJump 0 0 4 100000 with isValidated := true } =
    [originReading 98000, originReading 99000,
     { mkUltraReading cfgWideJump 0 0 4 100000 with isValidated := true }] := by
  unfold ultraPostBuffer
  rw [if_neg]
  · rfl
  · norm_num [lockedFarState, cfgWideJump, ultraDefaults]

theorem lockedFar_avg :
    calculateWeightedAverage cfgWideJump 100000
      (ultraPostBuffer cfgWideJump lockedFarState
        { mkUltraReading cfgWideJump 0 0 4 100000 with isValidated := true }) =
    some ⟨0, 0⟩ := by
  rw [lockedFar_buffer]
  apply calculateWeightedAverage_origin
  · simp
  · intro r hr
    have hconf : ultraConfidence cfgWideJump 4 = 1 := ultraConfidence_eval rfl
    rcases List.mem_cons.mp hr with h | h
    · rw [h]
      norm_num [originReading, cfgWideJump, ultraDefaults, max_def]
    · rcases List.mem_cons.mp h with h2 | h2
      · rw [h2]
        norm_num [originReading, cfgWideJump, ultraDefaults, max_def]
      · rw [List.mem_singleton.mp h2]
        simp only [mkUltraReading, hconf]
        norm_num [cfgWideJump, ultraDefaults, max_def]

theorem lockedFar_far :
    ¬ (calculateDistance (⟨0, 0⟩ : Position) farPoint ≤ cfgWideJump.lockRadius) := by
  rw [not_le, farPoint_dist]
  have : cfgWideJump.lockRadius = 2 := rfl
  rw [this]
  nlinarith [Real.pi_gt_three]

/-- Claim C2 counterexample: feeding an origin reading to an engine locked
at the far point makes it unlock (movement release), but
`consecutiveGoodReadings` ends at 6, not the 0 the claim requires. -/
theorem claim_C2_counterexample :
    (processGPSReading cfgWideJump lockedFarState 0 0 4 100000).isLocked = false ∧
    (processGPSReading cfgWideJump lockedFarState 0 0 4 100000).lockedPosition = none ∧
    (processGPSReading cfgWideJump lockedFarState 0 0 4 100000).consecutiveGoodReadings
      = 6 := by
  simp only [processGPSReading]
  rw [if_neg lockedFar_thr, lockedFar_valid, if_neg (by simp : ¬ (true = false))]
  simp only [acceptReading]
  rw [lockedFar_avg]
  simp only [mkUltraReading]
  have hacc : (4 : ℝ) ≤ cfgWideJump.minimumAccuracy := by
    norm_num [cfgWideJump, ultraDefaults]
  have hlock : lockedFarState.isLocked = true := rfl
  have hlp : lockedFarState.lockedPosition = some farPoint := rfl
  have hen : cfgWideJump.enablePositionLock = true := rfl
  simp only [if_pos hacc, hlock, hlp, hen, if_neg lockedFar_far]
  refine ⟨trivial, trivial, ?_⟩
  norm_num [lockedFarState]

/-- Claim C2 witness: the same scenario, through the amended claim. -/
theorem claim_C2_witness :
    (processGPSReading cfgWideJump lockedFarState 0 0 4 100000).isLocked = false ∧
    (processGPSReading cfgWideJump lockedFarState 0 0 4 100000).lockedPosition = none ∧
    (processGPSReading cfgWideJump lockedFarState 0 0 4 100000).basePosition =
      some ⟨0, 0⟩ ∧
    (processGPSReading cfgWideJump lockedFarState 0 0 4 100000).position = some ⟨0, 0⟩ ∧
    (processGPSReading cfgWideJump lockedFarState 0 0 4 100000).consecutiveGoodReadings =
      lockedFarState.consecutiveGoodReadings + 1 :=
  claim_C2 cfgWideJump lockedFarState 0 0 4 100000 farPoint ⟨0, 0⟩ rfl rfl rfl
    lockedFar_thr lockedFar_valid lockedFar_avg lockedFar_far

/-- Claim C4: (1) from an unlocked state with position lock enabled, an
accepted reading that brings the consecutive-good count to the lock
threshold, with all of the last `lockThreshold` buffered readings within
`lockRadius` of the stabilized position, drives `isLocked` to true and
freezes `lockedPosition` at the stabilized position; (2) while locked, an
accepted reading whose stabilized position stays within `lockRadius` of
`lockedPosition` reports the frozen `lockedPosition` unchanged. -/
theorem claim_C4 (cfg : UltraConfig) (s : UltraState) (latIn lngIn accuracyIn now : ℝ)
    (stable : Position)
    (hen : cfg.enablePositionLock = true)
    (hthr : ¬ (now - s.lastUpdateTime < cfg.updateInterval))
    (hvalid : validateGPSReading cfg s.basePosition s.gpsBuffer
      (mkUltraReading cfg latIn lngIn accuracyIn now) = true)
    (havg : calculateWeightedAverage cfg now
      (ultraPostBuffer cfg s
        { mkUltraReading cfg latIn lngIn accuracyIn now with isValidated := true }) =
      some stable) :
    (s.isLocked = false →
      cfg.lockThreshold ≤ s.consecutiveGoodReadings + 1 →
      (∀ r ∈ lastN cfg.lockThreshold
          (ultraPostBuffer cfg s
            { mkUltraReading cfg latIn lngIn accuracyIn now with isValidated := true }),
        calculateDistance stable r.toPos ≤ cfg.lockRadius) →
      (processGPSReading cfg s latIn lngIn accuracyIn now).isLocked = true ∧
      (processGPSReading cfg s latIn lngIn accuracyIn now).lockedPosition = some stable ∧
      (processGPSReading cfg s latIn lngIn accuracyIn now).position = some stable) ∧
    ∀ lp, s.isLocked = true → s.lockedPosition = some lp →
      calculateDistance stable lp ≤ cfg.lockRadius →
      (processGPSReading cfg s latIn lngIn accuracyIn now).position = some lp ∧
      (processGPSReading cfg s latIn lngIn accuracyIn now).isLocked = true ∧
      (processGPSReading cfg s latIn lngIn accuracyIn now).lockedPosition = some lp := by
  have hacc : accuracyIn ≤ cfg.minimumAccuracy := by
    have := validateGPSReading_true_acc cfg s.basePosition s.gpsBuffer
      (mkUltraReading cfg latIn lngIn accuracyIn now) hvalid
    simpa [mkUltraReading] using this
  have haccP : ({ mkUltraReading cfg latIn lngIn accuracyIn now with
      isValidated := true } : GPSBuffer).accuracy ≤ cfg.minimumAccuracy := hacc
  constructor
  · intro hunlocked hthresh hwithin
    simp only [processGPSReading]
    rw [if_neg hthr, hvalid, if_neg (by simp : ¬ (true = false))]
    simp only [acceptReading]
    rw [havg]
    have hLF : cfg.enablePositionLock = true ∧ s.isLocked = false ∧
        cfg.lockThreshold ≤ s.consecutiveGoodReadings + 1 ∧
        ∀ r ∈ lastN cfg.lockThreshold
          (ultraPostBuffer cfg s
            { mkUltraReading cfg latIn lngIn accuracyIn now with isValidated := true }),
          calculateDistance stable r.toPos ≤ cfg.lockRadius :=
      ⟨hen, hunlocked, hthresh, hwithin⟩
    simp only [if_pos haccP]
    simp only [if_pos hLF]
    simp only [hunlocked]
    exact ⟨trivial, trivial, trivial⟩
  · intro lp hlocked hlp hnear
    simp only [processGPSReading]
    rw [if_neg hthr, hvalid, if_neg (by simp : ¬ (true = false))]
    simp only [acceptReading]
    rw [havg]
    simp only [if_pos haccP, hlocked, hlp, hen, if_pos hnear, Bool.true_eq_false,
      false_and, and_false, if_false]
    exact ⟨trivial, trivial, trivial⟩

/-- Claim C10: a reading only validates when its accuracy is within
`minimumAccuracy`; therefore every reading appended to the ultra-stable
buffer keeps the buffer invariant `accuracy ≤ minimumAccuracy`, and every
accepted reading increments `consecutiveGoodReadings` (the reset branch is
unreachable for accepted readings). -/
theorem claim_C10 (cfg : UltraConfig) (s : UltraState) (latIn lngIn accuracyIn now : ℝ) :
    (validateGPSReading cfg s.basePosition s.gpsBuffer
        (mkUltraReading cfg latIn lngIn accuracyIn now) = true →
      accuracyIn ≤ cfg.minimumAccuracy) ∧
    ((∀ r ∈ s.gpsBuffer, r.accuracy ≤ cfg.minimumAccuracy) →
      ∀ r ∈ (processGPSReading cfg s latIn lngIn accuracyIn now).gpsBuffer,
        r.accuracy ≤ cfg.minimumAccuracy) ∧
    (¬ (now - s.lastUpdateTime < cfg.updateInterval) →
      validateGPSReading cfg s.basePosition s.gpsBuffer
        (mkUltraReading cfg latIn lngIn accuracyIn now) = true →
      (processGPSReading cfg s latIn lngIn accuracyIn now).consecutiveGoodReadings =
        s.consecutiveGoodReadings + 1) := by
  have hvacc : validateGPSReading cfg s.basePosition s.gpsBuffer
      (mkUltraReading cfg latIn lngIn accuracyIn now) = true →
      accuracyIn ≤ cfg.minimumAccuracy := by
    intro hv
    have := validateGPSReading_true_acc cfg s.basePosition s.gpsBuffer
      (mkUltraReading cfg latIn lngIn accuracyIn now) hv
    simpa [mkUltraReading] using this
  refine ⟨hvacc, ?_, ?_⟩
  · intro hinv r hr
    simp only [processGPSReading] at hr
    by_cases h1 : now - s.lastUpdateTime < cfg.updateInterval
    · rw [if_pos h1] at hr
      exact hinv r hr
    · rw [if_neg h1] at hr
      cases hb : validateGPSReading cfg s.basePosition s.gpsBuffer
          (mkUltraReading cfg latIn lngIn accuracyIn now) with
      | false =>
        rw [hb, if_pos rfl] at hr
        exact hinv r hr
      | true =>
        rw [hb, if_neg (by simp : ¬ (true = false))] at hr
        have hacc := hvacc hb
        have hbuf : ∀ x ∈ ultraPostBuffer cfg s
            { mkUltraReading cfg latIn lngIn accuracyIn now with isValidated := true },
            x.accuracy ≤ cfg.minimumAccuracy := by
          intro x hx
          have hx2 : x ∈ s.gpsBuffer ++
              [{ mkUltraReading cfg latIn lngIn accuracyIn now with isValidated := true }] := by
            revert hx
            unfold ultraPostBuffer
            by_cases h4 : cfg.bufferSize <
              (s.gpsBuffer ++
                [{ mkUltraReading cfg latIn lngIn accuracyIn now with
                  isValidated := true }]).length
            · rw [if_pos h4]
              intro hx
              exact (List.tail_sublist _).subset hx
            · rw [if_neg h4]
              intro hx
              exact hx
          rcases List.mem_append.mp hx2 with hm | hm
          · exact hinv x hm
          · rw [List.mem_singleton.mp hm]
            exact hacc
        simp only [acceptReading] at hr
        rcases havg2 : calculateWeightedAverage cfg now
            (ultraPostBuffer cfg s
              { mkUltraReading cfg latIn lngIn accuracyIn now with
                isValidated := true }) with _ | stable
        · rw [havg2] at hr
          exact hbuf r hr
        · rw [havg2] at hr
          exact hbuf r hr
  · intro h1 hv
    have hacc := hvacc hv
    have haccP : ({ mkUltraReading cfg latIn lngIn accuracyIn now with
        isValidated := true } : GPSBuffer).accuracy ≤ cfg.minimumAccuracy := hacc
    simp only [processGPSReading]
    rw [if_neg h1, hv, if_neg (by simp : ¬ (true = false))]
    simp only [acceptReading]
    rcases havg2 : calculateWeightedAverage cfg now
        (ultraPostBuffer cfg s
          { mkUltraReading cfg latIn lngIn accuracyIn now with
            isValidated := true }) with _ | stable <;>
      simp only [if_pos haccP]

theorem dist_origin_le {r : GPSBuffer} (h0 : r.lat = 0) (h1 : r.lng = 0) (c : ℝ)
    (hc : 0 ≤ c) : calculateDistance ⟨0, 0⟩ r.toPos ≤ c := by
  have h : r.toPos = (⟨0, 0⟩ : Position) := by
    simp [GPSBuffer.toPos, h0, h1]
  rw [h, calculateDistance_self]
  exact hc

theorem unlockedOrigin_thr :
    ¬ ((100000 : ℝ) - unlockedOriginState.lastUpdateTime < ultraDefaults.updateInterval) := by
  norm_num [unlockedOriginState, ultraDefaults]

theorem unlockedOrigin_valid :
    validateGPSReading ultraDefaults unlockedOriginState.basePosition
      unlockedOriginState.gpsBuffer (mkUltraReading ultraDefaults 0 0 4 100000) = true := by
  show validateGPSReading ultraDefaults (some ⟨0, 0⟩)
    [originReading 96000, originReading 97000, originReading 98000, originReading 99000]
    (mkUltraReading ultraDefaults 0 0 4 100000) = true
  apply validateGPSReading_origin
  · norm_num [ultraDefaults]
  · intro r hr
    fin_cases hr <;> norm_num [originReading]
  · rw [calculateDistance_self]
    norm_num [ultraDefaults]
  · norm_num [ultraDefaults]

theorem unlockedOrigin_buffer :
    ultraPostBuffer ultraDefaults unlockedOriginState
      { mkUltraReading ultraDefaults 0 0 4 100000 with isValidated := true } =
    [originReading 96000, originReading 97000, originReading 98000, originReading 99000,
     { mkUltraReading ultraDefaults 0 0 4 100000 with isValidated := true }] := by
  unfold ultraPostBuffer
  rw [if_neg]
  · rfl
  · norm_num [unlockedOriginState, ultraDefaults]

theorem unlockedOrigin_avg :
    calculateWeightedAverage ultraDefaults 100000
      (ultraPostBuffer ultraDefaults unlockedOriginState
        { mkUltraReading ultraDefaults 0 0 4 100000 with isValidated := true }) =
    some ⟨0, 0⟩ := by
  rw [unlockedOrigin_buffer]
  apply calculateWeightedAverage_origin
  · simp
  · have hconf : ultraConfidence ultraDefaults 4 = 1 := ultraConfidence_eval rfl
    intro r hr
    fin_cases hr
    · norm_num [originReading, ultraDefaults, max_def]
    · norm_num [originReading, ultraDefaults, max_def]
    · norm_num [originReading, ultraDefaults, max_def]
    · norm_num [originReading, ultraDefaults, max_def]
    · simp only [mkUltraReading, hconf]
      norm_num [ultraDefaults, max_def]

theorem lockedOrigin_thr :
    ¬ ((100000 : ℝ) - lockedOriginState.lastUpdateTime < ultraDefaults.updateInterval) := by
  norm_num [lockedOriginState, ultraDefaults]

theorem lockedOrigin_valid :
    validateGPSReading ultraDefaults lockedOriginState.basePosition
      lockedOriginState.gpsBuffer (mkUltraReading ultraDefaults 0 0 4 100000) = true := by
  show validateGPSReading ultraDefaults (some ⟨0, 0⟩)
    [originReading 98000, originReading 99000]
    (mkUltraReading ultraDefaults 0 0 4 100000) = true
  apply validateGPSReading_origin
  · norm_num [ultraDefaults]
  · intro r hr
    fin_cases hr <;> norm_num [originReading]
  · rw [calculateDistance_self]
    norm_num [ultraDefaults]
  · norm_num [ultraDefaults]

theorem lockedOrigin_buffer :
    ultraPostBuffer ultraDefaults lockedOriginState
      { mkUltraReading ultraDefaults 0 0 4 100000 with isValidated := true } =
    [originReading 98000, originReading 99000,
     { mkUltraReading ultraDefaults 0 0 4 100000 with isValidated := true }] := by
  unfold ultraPostBuffer
  rw [if_neg]
  · rfl
  · norm_num [lockedOriginState, ultraDefaults]

theorem lockedOrigin_avg :
    calculateWeightedAverage ultraDefaults 100000
      (ultraPostBuffer ultraDefaults lockedOriginState
        { mkUltraReading ultraDefaults 0 0 4 100000 with isValidated := true }) =
    some ⟨0, 0⟩ := by
  rw [lockedOrigin_buffer]
  apply calculateWeightedAverage_origin
  · simp
  · have hconf : ultraConfidence ultraDefaults 4 = 1 := ultraConfidence_eval rfl
    intro r hr
    fin_cases hr
    · norm_num [originReading, ultraDefaults, max_def]
    · norm_num [originReading, ultraDefaults, max_def]
    · simp only [mkUltraReading, hconf]
      norm_num [ultraDefaults, max_def]

/-- Claim C4 witness: a fifth consecutive origin reading locks the engine
at the origin, and a locked-at-origin engine fed another origin reading
keeps reporting the frozen position. -/
theorem claim_C4_witness :
    ((processGPSReading ultraDefaults unlockedOriginState 0 0 4 100000).isLocked = true ∧
     (processGPSReading ultraDefaults unlockedOriginState 0 0 4 100000).lockedPosition =
       some ⟨0, 0⟩ ∧
     (processGPSReading ultraDefaults unlockedOriginState 0 0 4 100000).position =
       some ⟨0, 0⟩) ∧
    (processGPSReading ultraDefaults lockedOriginState 0 0 4 100000).position =
       some ⟨0, 0⟩ ∧
    (processGPSReading ultraDefaults lockedOriginState 0 0 4 100000).isLocked = true ∧
    (processGPSReading ultraDefaults lockedOriginState 0 0 4 100000).lockedPosition =
       some ⟨0, 0⟩ := by
  constructor
  · apply (claim_C4 ultraDefaults unlockedOriginState 0 0 4 100000 ⟨0, 0⟩ rfl
      unlockedOrigin_thr unlockedOrigin_valid unlockedOrigin_avg).1
    · rfl
    · norm_num [unlockedOriginState, ultraDefaults]
    · intro r hr
      rw [unlockedOrigin_buffer] at hr
      have hor : r.lat = 0 ∧ r.lng = 0 := by
        fin_cases hr <;> norm_num [originReading, mkUltraReading]
      exact dist_origin_le hor.1 hor.2 ultraDefaults.lockRadius (by norm_num [ultraDefaults])
  · apply (claim_C4 ultraDefaults lockedOriginState 0 0 4 100000 ⟨0, 0⟩ rfl
      lockedOrigin_thr lockedOrigin_valid lockedOrigin_avg).2
    · rfl
    · rfl
    · rw [calculateDistance_self]
      norm_num [ultraDefaults]

/-- Claim C10 witness: feeding an origin reading to the locked-at-origin
engine preserves the buffer accuracy invariant and increments
`consecutiveGoodReadings` from 6 to 7. -/
theorem claim_C10_witness :
    (∀ r ∈ (processGPSReading ultraDefaults lockedOriginState 0 0 4 100000).gpsBuffer,
      r.accuracy ≤ ultraDefaults.minimumAccuracy) ∧
    (processGPSReading ultraDefaults lockedOriginState 0 0 4 100000).consecutiveGoodReadings =
      lockedOriginState.consecutiveGoodReadings + 1 :=
  ⟨(claim_C10 ultraDefaults lockedOriginState 0 0 4 100000).2.1
      (by intro r hr; fin_cases hr <;> norm_num [originReading, ultraDefaults]),
   (claim_C10 ultraDefaults lockedOriginState 0 0 4 100000).2.2 lockedOrigin_thr
      lockedOrigin_valid⟩

end UltraStableGPS

/-- In a sorted list, the element at index `k` has at least `k + 1` elements
at or below it and at least `length - k` elements at or above it. -/
theorem sorted_countP_median :
    ∀ (s : List ℝ), s.Sorted (fun a b => a ≤ b) → ∀ (k : ℕ) (hk : k < s.length),
      k + 1 ≤ s.countP (fun x => decide (x ≤ s.get ⟨k, hk⟩)) ∧
      s.length - k ≤ s.countP (fun x => decide (s.get ⟨k, hk⟩ ≤ x)) := by
  intro s
  induction s with
  | nil =>
    intro _ k hk
    simp at hk
  | cons a t ih =>
    intro hs k hk
    obtain ⟨ha, ht⟩ := List.sorted_cons.mp hs
    cases k with
    | zero =>
      constructor
      · rw [List.countP_cons]
        have hm : decide (a ≤ (a :: t).get ⟨0, hk⟩) = true := by
          simp
        rw [hm]
        simp
      · rw [List.countP_cons]
        have h1 : t.countP (fun x => decide ((a :: t).get ⟨0, hk⟩ ≤ x)) = t.length := by
          apply List.countP_eq_length.mpr
          intro b hb
          simpa using ha b hb
        have h2 : decide ((a :: t).get ⟨0, hk⟩ ≤ a) = true := by
          simp
        rw [h1, h2]
        simp
    | succ j =>
      have hj : j < t.length := by
        simpa using Nat.lt_of_succ_lt_succ hk
      have hget : (a :: t).get ⟨j + 1, hk⟩ = t.get ⟨j, hj⟩ := rfl
      obtain ⟨ih1, ih2⟩ := ih ht j hj
      constructor
      · rw [List.countP_cons, hget]
        have hm : decide (a ≤ t.get ⟨j, hj⟩) = true := by
          simp only [decide_eq_true_eq]
          exact ha _ (t.get_mem _ _)
        rw [hm]
        simp only [if_true, eq_self_iff_true]
        omega
      · rw [List.countP_cons, hget]
        have hle : t.length - j ≤ t.countP (fun x => decide (t.get ⟨j, hj⟩ ≤ x)) := ih2
        have hlen2 : (a :: t).length - (j + 1) = t.length - j := by
          simp [List.length_cons]
        rw [hlen2]
        exact le_trans hle (Nat.le_add_right _ _)

/-- The middle element of the sorted copy of a nonempty list is a median of
the list. -/
theorem insertionSort_median (l : List ℝ) (hl : l ≠ []) :
    isMedianOf ((List.insertionSort (fun a b => a ≤ b) l).getD (l.length / 2) 0) l := by
  have hperm : (List.insertionSort (fun a b => a ≤ b) l).Perm l :=
    List.perm_insertionSort _ l
  have hlen : (List.insertionSort (fun a b => a ≤ b) l).length = l.length :=
    hperm.length_eq
  have hsort : (List.insertionSort (fun a b => a ≤ b) l).Sorted (fun a b => a ≤ b) :=
    List.sorted_insertionSort _ l
  have hpos : 0 < l.length := List.length_pos.mpr hl
  have hk : l.length / 2 < (List.insertionSort (fun a b => a ≤ b) l).length := by
    rw [hlen]
    exact Nat.div_lt_self hpos (by norm_num)
  have hget : (List.insertionSort (fun a b => a ≤ b) l).getD (l.length / 2) 0 =
      (List.insertionSort (fun a b => a ≤ b) l).get ⟨l.length / 2, hk⟩ := by
    rw [List.getD_eq_getElem _ _ hk, List.get_eq_getElem]
  obtain ⟨hc1, hc2⟩ := sorted_countP_median _ hsort (l.length / 2) hk
  rw [hget]
  refine ⟨hperm.mem_iff.mp (List.get_mem _ _ _), ?_, ?_⟩
  · have he := hperm.countP_eq
      (fun x => decide (x ≤ (List.insertionSort (fun a b => a ≤ b) l).get ⟨l.length / 2, hk⟩))
    omega
  · have he := hperm.countP_eq
      (fun x => decide ((List.insertionSort (fun a b => a ≤ b) l).get ⟨l.length / 2, hk⟩ ≤ x))
    omega

namespace StableGPS

/-- Claim C7: after the current reading is pushed (buffer `bs ++ [r]`), the
median stage works on the window of the last five buffered readings, which
contains the current reading; when at least three readings are buffered it
returns per-axis medians of that window (independently for latitude and
longitude), and with fewer than three it returns the input coordinate
unchanged. -/
theorem claim_C7 (bs : List GPSReading) (r : GPSReading) :
    (3 ≤ (bs ++ [r]).length →
      r ∈ lastN 5 (bs ++ [r]) ∧
      isMedianOf (applyMedianFilter (bs ++ [r]) r).lat
        ((lastN 5 (bs ++ [r])).map GPSReading.lat) ∧
      isMedianOf (applyMedianFilter (bs ++ [r]) r).lng
        ((lastN 5 (bs ++ [r])).map GPSReading.lng)) ∧
    ((bs ++ [r]).length < 3 → applyMedianFilter (bs ++ [r]) r = ⟨r.lat, r.lng⟩) := by
  have hwlen : (lastN 5 (bs ++ [r])).length =
      (bs ++ [r]).length - ((bs ++ [r]).length - 5) := by
    simp [lastN]
  constructor
  · intro h3
    have hw3 : 3 ≤ (lastN 5 (bs ++ [r])).length := by omega
    have hmem : r ∈ lastN 5 (bs ++ [r]) := by
      unfold lastN
      rw [List.drop_append_of_le_length
        (by simp only [List.length_append, List.length_singleton]; omega)]
      simp
    have hlatne : ((lastN 5 (bs ++ [r])).map GPSReading.lat) ≠ [] := by
      apply List.ne_nil_of_length_pos
      rw [List.length_map]
      omega
    have hlngne : ((lastN 5 (bs ++ [r])).map GPSReading.lng) ≠ [] := by
      apply List.ne_nil_of_length_pos
      rw [List.length_map]
      omega
    refine ⟨hmem, ?_, ?_⟩
    · unfold applyMedianFilter
      rw [if_neg (by omega : ¬ (lastN 5 (bs ++ [r])).length < 3)]
      have hlenm := (List.perm_insertionSort (fun a b => a ≤ b)
        ((lastN 5 (bs ++ [r])).map GPSReading.lat)).length_eq
      show isMedianOf ((List.insertionSort (fun a b => a ≤ b)
          ((lastN 5 (bs ++ [r])).map GPSReading.lat)).getD
        ((List.insertionSort (fun a b => a ≤ b)
          ((lastN 5 (bs ++ [r])).map GPSReading.lat)).length / 2) 0)
        ((lastN 5 (bs ++ [r])).map GPSReading.lat)
      rw [hlenm]
      exact insertionSort_median _ hlatne
    · unfold applyMedianFilter
      rw [if_neg (by omega : ¬ (lastN 5 (bs ++ [r])).length < 3)]
      have hlenm := (List.perm_insertionSort (fun a b => a ≤ b)
        ((lastN 5 (bs ++ [r])).map GPSReading.lng)).length_eq
      show isMedianOf ((List.insertionSort (fun a b => a ≤ b)
          ((lastN 5 (bs ++ [r])).map GPSReading.lng)).getD
        ((List.insertionSort (fun a b => a ≤ b)
          ((lastN 5 (bs ++ [r])).map GPSReading.lng)).length / 2) 0)
        ((lastN 5 (bs ++ [r])).map GPSReading.lng)
      rw [hlenm]
      exact insertionSort_median _ hlngne
  · intro hlt
    unfold applyMedianFilter
    rw [if_pos (by omega : (lastN 5 (bs ++ [r])).length < 3)]

/-- Claim C7 witness: a three-reading buffer activates the median stage and
its output latitude/longitude are medians of the window; a single-reading
buffer passes the raw coordinate through. -/
theorem claim_C7_witness :
    (confReading 1 300 ∈
        lastN 5 ([confReading 1 100, confReading 1 200] ++ [confReading 1 300]) ∧
      isMedianOf (applyMedianFilter
          ([confReading 1 100, confReading 1 200] ++ [confReading 1 300])
          (confReading 1 300)).lat
        ((lastN 5 ([confReading 1 100, confReading 1 200] ++
          [confReading 1 300])).map GPSReading.lat) ∧
      isMedianOf (applyMedianFilter
          ([confReading 1 100, confReading 1 200] ++ [confReading 1 300])
          (confReading 1 300)).lng
        ((lastN 5 ([confReading 1 100, confReading 1 200] ++
          [confReading 1 300])).map GPSReading.lng)) ∧
    applyMedianFilter ([] ++ [confReading 1 300]) (confReading 1 300) =
      ⟨(confReading 1 300).lat, (confReading 1 300).lng⟩ :=
  ⟨(claim_C7 [confReading 1 100, confReading 1 200] (confReading 1 300)).1 (by simp),
   (claim_C7 [] (confReading 1 300)).2 (by simp)⟩

end StableGPS

end GPSTunnel
